import Mathlib

/-!
# Verification of the windowing engine of `createListComponent.js`

This file gives a shallow embedding of the list-windowing engine in
`src/createListComponent.js` (the component factory returned by
`createListComponent`) and proves the specified properties of its range
computation, scroll state machine, debounce controller and change
callbacks.

Modelling conventions:
* JS numbers that the engine manipulates (offsets, sizes, indices, counts)
  are modelled as `Int`; the claims under study involve no fractional or
  NaN arithmetic inside the embedded code itself.
* The JS value `undefined` stored in the `normalizedScrollLeft` state field
  (the source commits `normalizedScrollLeft: undefined` from the vertical
  branches of `scrollTo` / `scrollToItem`) is modelled as `none` in an
  `Option Int`, with the JS comparison `undefined < n` evaluating to
  `false` (`jsLt`).
* The injected metrics strategy (`getItemOffset`, `getEstimatedTotalSize`,
  `getOffsetForIndexAndAlignment`, `getStartIndexForOffset`,
  `getStopIndexForStartIndex`) mutates the opaque `this._instanceProps`;
  this is modelled by explicit state passing: every strategy operation
  takes the instance state and returns a value paired with the new state.
-/

/-- Writing-direction prop of the component: the two real values plus the
two deprecated spellings accepted by the source. -/
inductive Direction
  | ltr
  | rtl
  | horizontal
  | vertical
deriving DecidableEq, Repr

/-- Layout prop of the component. -/
inductive Layout
  | horizontal
  | vertical
deriving DecidableEq, Repr

/-- Scroll direction values of the scroll state. -/
inductive ScrollDir
  | forward
  | backward
deriving DecidableEq, Repr

/-- Alignment argument of `scrollToItem`; the source value `end` is spelled
`end_` because `end` is a reserved word. -/
inductive Align
  | auto
  | smart
  | center
  | start
  | end_
deriving DecidableEq, Repr

/-- Result of `_mappedDirectionForNormalization`: always a concrete writing
direction. -/
inductive MappedDir
  | ltr
  | rtl
deriving DecidableEq, Repr

/-- The component props the embedded operations read, from `Props` in the
source.  `hasOnItemsRendered` / `hasOnScroll` model whether the optional
`onItemsRendered` / `onScroll` callback props are supplied (the source
tests `typeof ... === 'function'`). -/
structure ListProps where
  direction : Direction
  layout : Layout
  itemCount : Int
  overscanCount : Int
  width : Int
  hasOnItemsRendered : Bool
  hasOnScroll : Bool
deriving DecidableEq, Repr

/-- The scroll state of the component (`State` in the source, minus the
self-reference `instance` field used only by dev validation).
`normalizedScrollLeft = none` models the JS value `undefined`. -/
structure ScrollState where
  isScrolling : Bool
  scrollDirection : ScrollDir
  scrollOffset : Int
  normalizedScrollLeft : Option Int
  scrollUpdateWasRequested : Bool
deriving DecidableEq, Repr

/-- JS comparison `a < b` where `a` may be `undefined`: `undefined < b`
is `false` (NaN comparison). -/
def jsLt (a : Option Int) (b : Int) : Bool :=
  match a with
  | some x => decide (x < b)
  | none => false

/-- JS expression `n || 1`: `0` is falsy, every other number (the engine
never produces NaN here) is truthy. -/
def jsOrOne (n : Int) : Int :=
  if n = 0 then 1 else n

/-- Source test `layout === 'horizontal' || direction === 'horizontal'`, the
horizontal test used by `scrollTo`, `scrollToItem` and `render`. -/
def isHorizontal (props : ListProps) : Bool :=
  props.layout = Layout.horizontal ∨ props.direction = Direction.horizontal

/-- Source method `_mappedDirectionForNormalization`: the deprecated
directions `horizontal` / `vertical` map to `ltr`, otherwise the direction
prop is already `ltr` or `rtl`. -/
def mappedDirectionForNormalization (props : ListProps) : MappedDir :=
  match props.direction with
  | Direction.ltr => MappedDir.ltr
  | Direction.rtl => MappedDir.rtl
  | Direction.horizontal => MappedDir.ltr
  | Direction.vertical => MappedDir.ltr

/-- Modelled from the spec: `normalizeScrollLeft` is imported by the source
from `./domHelpers`, which is not among the reviewed sources.  Section 4.2
of the specification defines the canonical conversion: for left-to-right,
normalized = scrollOffset unchanged; for right-to-left, normalized =
contentExtent − viewportExtent − scrollOffset.  The clamp to ≥ 0 described
there is performed at the call sites (`scrollTo` checks for a negative
normalized result, per section 4.4), so the conversion itself may return a
negative value.  Argument order follows the named record of the source:
direction, scrollLeft, clientWidth, scrollWidth. -/
def normalizeScrollLeft (dir : MappedDir) (scrollLeft clientWidth scrollWidth : Int) : Int :=
  match dir with
  | MappedDir.ltr => scrollLeft
  | MappedDir.rtl => scrollWidth - clientWidth - scrollLeft

/-- The injected metrics strategy (the argument record of
`createListComponent`), with the mutation of the opaque
`this._instanceProps` made explicit: every operation returns its value
paired with the updated instance state.  Offset arguments are
`Option Int` because the source can pass the (possibly `undefined`)
`normalizedScrollLeft` state field through to the strategy. -/
structure Strategy (IP : Type) where
  getItemOffset : ListProps → Int → IP → Int × IP
  getItemSize : ListProps → Int → IP → Int × IP
  getEstimatedTotalSize : ListProps → IP → Int × IP
  getOffsetForIndexAndAlignment : ListProps → Int → Align → Option Int → IP → Int × IP
  getStartIndexForOffset : ListProps → Option Int → IP → Int × IP
  getStopIndexForStartIndex : ListProps → Int → Option Int → IP → Int × IP

/-- The window tuple returned by `_getRangeToRender`:
(overscanStartIndex, overscanStopIndex, visibleStartIndex,
visibleStopIndex). -/
abbrev RangeTuple := Int × Int × Int × Int

/-- The overscan applied on the backward side in `_getRangeToRender`. -/
def overscanBackwardOf (props : ListProps) (st : ScrollState) : Int :=
  if st.isScrolling = false ∨ st.scrollDirection = ScrollDir.backward then
    max 1 props.overscanCount
  else 1

/-- The overscan applied on the forward side in `_getRangeToRender`. -/
def overscanForwardOf (props : ListProps) (st : ScrollState) : Int :=
  if st.isScrolling = false ∨ st.scrollDirection = ScrollDir.forward then
    max 1 props.overscanCount
  else 1

/-- Source method `_getRangeToRender`.  The offset driving the range is
the raw `scrollOffset` when `layout === 'vertical' || direction ===
'vertical'`, otherwise the (possibly `undefined`) `normalizedScrollLeft`.
The strategy calls thread the instance state. -/
def getRangeToRender {IP : Type} (M : Strategy IP) (props : ListProps)
    (st : ScrollState) (ip : IP) : RangeTuple × IP :=
  if props.itemCount = 0 then ((0, 0, 0, 0), ip)
  else
    let offsetToUse : Option Int :=
      if props.layout = Layout.vertical ∨ props.direction = Direction.vertical then
        some st.scrollOffset
      else st.normalizedScrollLeft
    let r1 := M.getStartIndexForOffset props offsetToUse ip
    let startIndex := r1.1
    let r2 := M.getStopIndexForStartIndex props startIndex offsetToUse r1.2
    let stopIndex := r2.1
    ((max 0 (startIndex - overscanBackwardOf props st),
      max 0 (min (props.itemCount - 1) (stopIndex + overscanForwardOf props st)),
      startIndex,
      stopIndex), r2.2)

lemma one_le_overscanBackwardOf (props : ListProps) (st : ScrollState) :
    1 ≤ overscanBackwardOf props st := by
  unfold overscanBackwardOf
  split <;> omega

lemma one_le_overscanForwardOf (props : ListProps) (st : ScrollState) :
    1 ≤ overscanForwardOf props st := by
  unfold overscanForwardOf
  split <;> omega

/-- Claim C1: for every configuration with itemCount ≥ 0 and every scroll
state, assuming the injected `getStartIndexForOffset` and
`getStopIndexForStartIndex` return indices in [0, itemCount−1] with
start ≤ stop, `_getRangeToRender` returns a tuple
(overscanStart, overscanStop, visibleStart, visibleStop) satisfying
0 ≤ overscanStart ≤ visibleStart ≤ visibleStop ≤ overscanStop ≤
itemCount−1; when itemCount = 0 it returns the degenerate tuple
(0, 0, 0, 0). -/
theorem getRangeToRender_window_invariant {IP : Type} (M : Strategy IP)
    (props : ListProps) (st : ScrollState) (ip : IP)
    (hic : 0 ≤ props.itemCount)
    (hStart : ∀ (o : Option Int) (j : IP),
      0 ≤ (M.getStartIndexForOffset props o j).1 ∧
      (M.getStartIndexForOffset props o j).1 ≤ props.itemCount - 1)
    (hStop : ∀ (s : Int) (o : Option Int) (j : IP),
      0 ≤ s → s ≤ props.itemCount - 1 →
      s ≤ (M.getStopIndexForStartIndex props s o j).1 ∧
      (M.getStopIndexForStartIndex props s o j).1 ≤ props.itemCount - 1) :
    (props.itemCount = 0 → (getRangeToRender M props st ip).1 = (0, 0, 0, 0)) ∧
    (0 < props.itemCount →
      0 ≤ (getRangeToRender M props st ip).1.1 ∧
      (getRangeToRender M props st ip).1.1 ≤ (getRangeToRender M props st ip).1.2.2.1 ∧
      (getRangeToRender M props st ip).1.2.2.1 ≤ (getRangeToRender M props st ip).1.2.2.2 ∧
      (getRangeToRender M props st ip).1.2.2.2 ≤ (getRangeToRender M props st ip).1.2.1 ∧
      (getRangeToRender M props st ip).1.2.1 ≤ props.itemCount - 1) := by
  constructor
  · intro h
    simp [getRangeToRender, h]
  · intro hpos
    have hne : ¬ props.itemCount = 0 := by omega
    have hB := one_le_overscanBackwardOf props st
    have hF := one_le_overscanForwardOf props st
    simp only [getRangeToRender, hne, if_false]
    set o : Option Int :=
      if props.layout = Layout.vertical ∨ props.direction = Direction.vertical then
        some st.scrollOffset
      else st.normalizedScrollLeft with ho
    obtain ⟨hs0, hs1⟩ := hStart o ip
    obtain ⟨ht0, ht1⟩ :=
      hStop (M.getStartIndexForOffset props o ip).1 o
        (M.getStartIndexForOffset props o ip).2 hs0 hs1
    refine ⟨?_, ?_, ?_, ?_, ?_⟩ <;> omega

/-- A strategy returning constant values, used to evaluate the theorems on
concrete inputs. -/
def constStrategy (startIdx stopIdx total itemOff alignOff : Int) : Strategy Unit where
  getItemOffset := fun _ _ u => (itemOff, u)
  getItemSize := fun _ _ u => (1, u)
  getEstimatedTotalSize := fun _ u => (total, u)
  getOffsetForIndexAndAlignment := fun _ _ _ _ u => (alignOff, u)
  getStartIndexForOffset := fun _ _ u => (startIdx, u)
  getStopIndexForStartIndex := fun _ _ _ u => (stopIdx, u)

/-- Witness for `getRangeToRender_window_invariant`: a concrete one-item
vertical list with a constant strategy. -/
theorem getRangeToRender_window_invariant_witness :
    0 ≤ (getRangeToRender (constStrategy 0 0 10 0 0)
          (ListProps.mk Direction.ltr Layout.vertical 1 2 100 false false)
          (ScrollState.mk false ScrollDir.forward 0 (some 0) false) ()).1.1 :=
  ((getRangeToRender_window_invariant (constStrategy 0 0 10 0 0)
      (ListProps.mk Direction.ltr Layout.vertical 1 2 100 false false)
      (ScrollState.mk false ScrollDir.forward 0 (some 0) false) ()
      (by decide)
      (fun o j => by refine ⟨?_, ?_⟩ <;> simp [constStrategy]
      )
      (fun s o j hs0 hs1 => by
        refine ⟨?_, ?_⟩ <;> simp [constStrategy] at * <;> omega
      )).2 (by decide)).1

/-- Claim C7: with itemCount = 1000, overscanCount = 3, a state in motion
scrolling forward, and the injected strategy returning visible start 40 and
visible stop 45, `_getRangeToRender` returns (39, 48, 40, 45): backward
overscan shrunk to 1 on the trailing side, forward overscan kept at
max(1, overscanCount) = 3. -/
theorem getRangeToRender_overscan_asymmetry_example :
    (getRangeToRender (constStrategy 40 45 50000 0 0)
      (ListProps.mk Direction.ltr Layout.horizontal 1000 3 100 false false)
      (ScrollState.mk true ScrollDir.forward 2000 (some 2000) false) ()).1
      = (39, 48, 40, 45) := by
  decide

/-- Result of a `setState` updater call: the state after the update, a flag
recording whether the updater produced a state change (`false` when it
returned `null`, in which case React keeps the previous state and skips the
re-render), and the instance-props state after any strategy calls made
before the update. -/
structure UpdOut (IP : Type) where
  state : ScrollState
  committed : Bool
  ip : IP
deriving Repr

/-- The clamping phase of `scrollTo` (source lines 214-244): the scroll
offset actually handed to the updater, together with the local
`normalizedScrollLeft` variable (`none` models the JS `undefined` it keeps
on the vertical path).  For horizontal layouts the estimated total size is
queried from the strategy; a negative normalized result is forced to 0 and
the raw offset re-derived by converting that 0 back. -/
def scrollToTarget {IP : Type} (M : Strategy IP) (props : ListProps) (ip : IP)
    (scrollOffset : Int) : Int × Option Int × IP :=
  if isHorizontal props then
    let r := M.getEstimatedTotalSize props ip
    let scrollWidth := r.1
    let normalized :=
      normalizeScrollLeft (mappedDirectionForNormalization props) scrollOffset
        props.width scrollWidth
    if normalized < 0 then
      (normalizeScrollLeft (mappedDirectionForNormalization props) 0 props.width scrollWidth,
        some 0, r.2)
    else
      (scrollOffset, some normalized, r.2)
  else
    (max 0 scrollOffset, none, ip)

/-- Source method `scrollTo` (lines 214-263): clamping phase followed by the
`setState` updater, which bails out (returns `null`) when the previous
offset already equals the target and otherwise commits direction, offset,
normalized offset and the requested flag — `isScrolling` is not part of
the committed object and is therefore kept. -/
def scrollTo {IP : Type} (M : Strategy IP) (props : ListProps) (st : ScrollState)
    (ip : IP) (scrollOffset : Int) : UpdOut IP :=
  let t := scrollToTarget M props ip scrollOffset
  let target := t.1
  let normalized := t.2.1
  if st.scrollOffset = target then
    UpdOut.mk st false t.2.2
  else
    let directionCalculation :=
      if isHorizontal props then
        jsLt st.normalizedScrollLeft (normalized.getD 0) = true
      else
        st.scrollOffset < target
    UpdOut.mk
      { st with
        scrollDirection :=
          if directionCalculation then ScrollDir.forward else ScrollDir.backward,
        scrollOffset := target,
        normalizedScrollLeft := normalized,
        scrollUpdateWasRequested := true }
      true t.2.2

/-- Source method `scrollToItem` (lines 265-357).  On the horizontal path the
normalized target is computed first, the strategy is probed at the clamped
index `stopIndex + overscanForward` (forcing measurement), the estimated
total width is then re-queried, and only then is the browser offset derived
from the fresh total.  The vertical path resolves the alignment directly
against the raw offset. -/
def scrollToItemCore {IP : Type} (M : Strategy IP) (props : ListProps)
    (st : ScrollState) (ip : IP) (index : Int) (align : Align) :
    Int × Option Int × ScrollDir × IP :=
  let index' := max 0 (min index (props.itemCount - 1))
  if isHorizontal props then
    let r1 := M.getOffsetForIndexAndAlignment props index' align st.normalizedScrollLeft ip
    let newNormalizedScrollOffset := r1.1
    let r2 := M.getStartIndexForOffset props (some newNormalizedScrollOffset) r1.2
    let startIndex := r2.1
    let r3 := M.getStopIndexForStartIndex props startIndex
      (some newNormalizedScrollOffset) r2.2
    let stopIndex := r3.1
    let scrollDirection :=
      if jsLt st.normalizedScrollLeft newNormalizedScrollOffset then ScrollDir.forward
      else ScrollDir.backward
    let overscanForward :=
      if scrollDirection = ScrollDir.forward then max 1 (jsOrOne props.overscanCount)
      else 1
    let r4 := M.getItemOffset props
      (max 0 (min (props.itemCount - 1) (stopIndex + overscanForward))) r3.2
    let r5 := M.getEstimatedTotalSize props r4.2
    let newEstimatedTotalWidth := r5.1
    let browserOffset :=
      normalizeScrollLeft (mappedDirectionForNormalization props)
        newNormalizedScrollOffset (min props.width newEstimatedTotalWidth)
        newEstimatedTotalWidth
    (browserOffset, some newNormalizedScrollOffset, scrollDirection, r5.2)
  else
    let r1 := M.getOffsetForIndexAndAlignment props index' align (some st.scrollOffset) ip
    let browserOffset := r1.1
    let scrollDirection :=
      if st.scrollOffset < browserOffset then ScrollDir.forward else ScrollDir.backward
    (browserOffset, (none : Option Int), scrollDirection, r1.2)

/-- The `setState` step of `scrollToItem`: bail out when the previous
offset already equals the computed browser offset, otherwise commit
direction, offset, normalized offset and the requested flag —
`isScrolling` is not part of the committed object and is therefore
kept. -/
def scrollToItem {IP : Type} (M : Strategy IP) (props : ListProps) (st : ScrollState)
    (ip : IP) (index : Int) (align : Align) : UpdOut IP :=
  let r := scrollToItemCore M props st ip index align
  let browserOffset := r.1
  let newNormalizedScrollOffset := r.2.1
  let scrollDirection := r.2.2.1
  if st.scrollOffset = browserOffset then
    UpdOut.mk st false r.2.2.2
  else
    UpdOut.mk
      { st with
        scrollDirection := scrollDirection,
        scrollOffset := browserOffset,
        normalizedScrollLeft := newNormalizedScrollOffset,
        scrollUpdateWasRequested := true }
      true r.2.2.2

/-- Source handler `_onScrollHorizontal` (lines 654-682): the updater bails out
when the observed `scrollLeft` equals the committed offset; otherwise it
commits the whole scroll state with a freshly normalized offset. -/
def onScrollHorizontal (props : ListProps) (st : ScrollState)
    (clientWidth scrollLeft scrollWidth : Int) : ScrollState :=
  if st.scrollOffset = scrollLeft then st
  else
    let normalizedScrollLeft :=
      normalizeScrollLeft (mappedDirectionForNormalization props) scrollLeft
        clientWidth scrollWidth
    { isScrolling := true,
      scrollDirection :=
        if jsLt st.normalizedScrollLeft normalizedScrollLeft then ScrollDir.forward
        else ScrollDir.backward,
      scrollOffset := scrollLeft,
      normalizedScrollLeft := some normalizedScrollLeft,
      scrollUpdateWasRequested := false }

/-- Source handler `_onScrollVertical` (lines 684-702): the committed object does
not mention `normalizedScrollLeft`, which therefore keeps its value. -/
def onScrollVertical (st : ScrollState) (scrollTop : Int) : ScrollState :=
  if st.scrollOffset = scrollTop then st
  else
    { st with
      isScrolling := true,
      scrollDirection :=
        if st.scrollOffset < scrollTop then ScrollDir.forward else ScrollDir.backward,
      scrollOffset := scrollTop,
      scrollUpdateWasRequested := false }

/-- The state change of `_resetIsScrolling` (source lines 731-739): the
debounce expiry clears the in-motion flag. -/
def resetIsScrollingState (st : ScrollState) : ScrollState :=
  { st with isScrolling := false }

lemma scrollTo_scrollOffset_eq_target {IP : Type} (M : Strategy IP)
    (props : ListProps) (st : ScrollState) (ip : IP) (offset : Int) :
    (scrollTo M props st ip offset).state.scrollOffset =
      (scrollToTarget M props ip offset).1 := by
  unfold scrollTo
  by_cases hg : st.scrollOffset = (scrollToTarget M props ip offset).1
  · simp [hg]
  · simp [hg]

/-- Claim C3: for every observed scroll event, if the event's raw offset
equals the committed `scrollOffset` the state is left entirely unchanged;
otherwise the committed state has `isScrolling = true`,
`scrollUpdateWasRequested = false`, `scrollOffset` equal to the raw offset,
and `scrollDirection = forward` exactly when the driving offset
(normalized scrollLeft for horizontal, raw offset for vertical) strictly
increased, else `backward`. -/
theorem onScroll_transition_spec :
    (∀ (props : ListProps) (st : ScrollState) (cw sl sw : Int),
      (st.scrollOffset = sl → onScrollHorizontal props st cw sl sw = st) ∧
      (st.scrollOffset ≠ sl →
        (onScrollHorizontal props st cw sl sw).isScrolling = true ∧
        (onScrollHorizontal props st cw sl sw).scrollUpdateWasRequested = false ∧
        (onScrollHorizontal props st cw sl sw).scrollOffset = sl ∧
        ∀ p : Int, st.normalizedScrollLeft = some p →
          ((onScrollHorizontal props st cw sl sw).scrollDirection = ScrollDir.forward ↔
            p < normalizeScrollLeft (mappedDirectionForNormalization props) sl cw sw))) ∧
    (∀ (st : ScrollState) (top : Int),
      (st.scrollOffset = top → onScrollVertical st top = st) ∧
      (st.scrollOffset ≠ top →
        (onScrollVertical st top).isScrolling = true ∧
        (onScrollVertical st top).scrollUpdateWasRequested = false ∧
        (onScrollVertical st top).scrollOffset = top ∧
        ((onScrollVertical st top).scrollDirection = ScrollDir.forward ↔
          st.scrollOffset < top))) := by
  constructor
  · intro props st cw sl sw
    constructor
    · intro h
      simp [onScrollHorizontal, h]
    · intro h
      simp only [onScrollHorizontal, if_neg h]
      refine ⟨trivial, trivial, trivial, ?_⟩
      intro p hp
      by_cases hpn :
          p < normalizeScrollLeft (mappedDirectionForNormalization props) sl cw sw <;>
        simp [jsLt, hp, hpn]
  · intro st top
    constructor
    · intro h
      simp [onScrollVertical, h]
    · intro h
      simp only [onScrollVertical, if_neg h]
      refine ⟨trivial, trivial, trivial, ?_⟩
      by_cases hlt : st.scrollOffset < top <;> simp [hlt]

/-- Witness for `onScroll_transition_spec`: a concrete horizontal scroll
event moving the offset from 0 to 10 commits the raw offset 10. -/
theorem onScroll_transition_spec_witness :
    (ScrollState.mk false ScrollDir.backward 0 (some 0) false).scrollOffset ≠ 10 ∧
    (onScrollHorizontal (ListProps.mk Direction.ltr Layout.horizontal 100 2 50 false false)
      (ScrollState.mk false ScrollDir.backward 0 (some 0) false) 50 10 200).scrollOffset
      = 10 :=
  ⟨by decide,
    (((onScroll_transition_spec).1
      (ListProps.mk Direction.ltr Layout.horizontal 100 2 50 false false)
      (ScrollState.mk false ScrollDir.backward 0 (some 0) false) 50 10 200).2
      (by decide)).2.2.1⟩

/-- Claim C4: `scrollTo` commits `max(0, offset)` on a vertical layout; on
a horizontal layout, when normalizing the requested offset (against the
current estimated total extent and viewport width) is negative, the
normalized value is forced to exactly 0 and the committed raw offset is the
denormalization of that 0 against the same extent and width. -/
theorem scrollTo_clamping_spec {IP : Type} (M : Strategy IP) (props : ListProps)
    (st : ScrollState) (ip : IP) (offset : Int) :
    (isHorizontal props = false →
      (scrollTo M props st ip offset).state.scrollOffset = max 0 offset) ∧
    (isHorizontal props = true →
      normalizeScrollLeft (mappedDirectionForNormalization props) offset props.width
          (M.getEstimatedTotalSize props ip).1 < 0 →
      (scrollToTarget M props ip offset).1 =
        normalizeScrollLeft (mappedDirectionForNormalization props) 0 props.width
          (M.getEstimatedTotalSize props ip).1 ∧
      (scrollToTarget M props ip offset).2.1 = some 0 ∧
      (scrollTo M props st ip offset).state.scrollOffset =
        normalizeScrollLeft (mappedDirectionForNormalization props) 0 props.width
          (M.getEstimatedTotalSize props ip).1) := by
  constructor
  · intro h
    rw [scrollTo_scrollOffset_eq_target]
    simp [scrollToTarget, h]
  · intro h hneg
    have ht : scrollToTarget M props ip offset =
        (normalizeScrollLeft (mappedDirectionForNormalization props) 0 props.width
          (M.getEstimatedTotalSize props ip).1, some 0,
          (M.getEstimatedTotalSize props ip).2) := by
      simp [scrollToTarget, h, hneg]
    refine ⟨?_, ?_, ?_⟩
    · rw [ht]
    · rw [ht]
    · rw [scrollTo_scrollOffset_eq_target, ht]

/-- Witness for `scrollTo_clamping_spec`: on a vertical list the request
-7 commits offset 0; on an rtl horizontal list of estimated extent 100 and
width 30 the request 200 normalizes to -130 < 0 and commits the re-derived
offset 70. -/
theorem scrollTo_clamping_spec_witness :
    (scrollTo (constStrategy 0 0 100 0 0)
        (ListProps.mk Direction.ltr Layout.vertical 10 2 30 false false)
        (ScrollState.mk false ScrollDir.forward 5 (some 0) false) () (-7)).state.scrollOffset
      = max 0 (-7) ∧
    (scrollTo (constStrategy 0 0 100 0 0)
        (ListProps.mk Direction.rtl Layout.horizontal 10 2 30 false false)
        (ScrollState.mk false ScrollDir.forward 5 (some 0) false) () 200).state.scrollOffset
      = normalizeScrollLeft MappedDir.rtl 0 30 100 :=
  ⟨(scrollTo_clamping_spec (constStrategy 0 0 100 0 0)
      (ListProps.mk Direction.ltr Layout.vertical 10 2 30 false false)
      (ScrollState.mk false ScrollDir.forward 5 (some 0) false) () (-7)).1 (by decide),
    ((scrollTo_clamping_spec (constStrategy 0 0 100 0 0)
      (ListProps.mk Direction.rtl Layout.horizontal 10 2 30 false false)
      (ScrollState.mk false ScrollDir.forward 5 (some 0) false) () 200).2 (by decide)
      (by decide)).2.2⟩

/-- Claim C9: neither `scrollTo` nor `scrollToItem` ever changes the
`isScrolling` flag; an observed scroll event either leaves the state
unchanged or sets `isScrolling` to true; and the debounce expiry sets it to
false. -/
theorem programmatic_scroll_preserves_isScrolling :
    (∀ (IP : Type) (M : Strategy IP) (props : ListProps) (st : ScrollState)
        (ip : IP) (offset : Int),
      (scrollTo M props st ip offset).state.isScrolling = st.isScrolling) ∧
    (∀ (IP : Type) (M : Strategy IP) (props : ListProps) (st : ScrollState)
        (ip : IP) (index : Int) (align : Align),
      (scrollToItem M props st ip index align).state.isScrolling = st.isScrolling) ∧
    (∀ (props : ListProps) (st : ScrollState) (cw sl sw : Int),
      onScrollHorizontal props st cw sl sw = st ∨
      (onScrollHorizontal props st cw sl sw).isScrolling = true) ∧
    (∀ (st : ScrollState) (top : Int),
      onScrollVertical st top = st ∨ (onScrollVertical st top).isScrolling = true) ∧
    (∀ st : ScrollState, (resetIsScrollingState st).isScrolling = false) := by
  refine ⟨?_, ?_, ?_, ?_, ?_⟩
  · intro IP M props st ip offset
    simp only [scrollTo]
    split <;> rfl
  · intro IP M props st ip index align
    simp only [scrollToItem]
    split <;> rfl
  · intro props st cw sl sw
    simp only [onScrollHorizontal]
    split
    · exact Or.inl rfl
    · exact Or.inr rfl
  · intro st top
    simp only [onScrollVertical]
    split
    · exact Or.inl rfl
    · exact Or.inr rfl
  · intro st
    rfl

/-- Observable strategy invocations, used to record the order in which
`scrollToItem` consults the injected metrics strategy. -/
inductive StratCall
  | itemOffset (index : Int)
  | itemSize (index : Int)
  | estimatedTotalSize
  | offsetForIndexAndAlignment (index : Int) (align : Align) (scrollOffset : Option Int)
  | startIndexForOffset (offset : Option Int)
  | stopIndexForStartIndex (startIndex : Int) (offset : Option Int)
deriving DecidableEq, Repr

/-- Instrumentation of a strategy: behaves exactly like `M` on the first
component of its state and appends one event per invocation to the second
component. -/
def traced {IP : Type} (M : Strategy IP) : Strategy (IP × List StratCall) where
  getItemOffset := fun p i s =>
    ((M.getItemOffset p i s.1).1,
      ((M.getItemOffset p i s.1).2, s.2 ++ [StratCall.itemOffset i]))
  getItemSize := fun p i s =>
    ((M.getItemSize p i s.1).1,
      ((M.getItemSize p i s.1).2, s.2 ++ [StratCall.itemSize i]))
  getEstimatedTotalSize := fun p s =>
    ((M.getEstimatedTotalSize p s.1).1,
      ((M.getEstimatedTotalSize p s.1).2, s.2 ++ [StratCall.estimatedTotalSize]))
  getOffsetForIndexAndAlignment := fun p i a o s =>
    ((M.getOffsetForIndexAndAlignment p i a o s.1).1,
      ((M.getOffsetForIndexAndAlignment p i a o s.1).2,
        s.2 ++ [StratCall.offsetForIndexAndAlignment i a o]))
  getStartIndexForOffset := fun p o s =>
    ((M.getStartIndexForOffset p o s.1).1,
      ((M.getStartIndexForOffset p o s.1).2, s.2 ++ [StratCall.startIndexForOffset o]))
  getStopIndexForStartIndex := fun p i o s =>
    ((M.getStopIndexForStartIndex p i o s.1).1,
      ((M.getStopIndexForStartIndex p i o s.1).2,
        s.2 ++ [StratCall.stopIndexForStartIndex i o]))

/-- Claim C2: on a horizontal layout `scrollToItem` (i) resolves the
alignment policy into a normalized target, (ii) calls `getItemOffset` at
the index `stopIndex + overscanForward` clamped to [0, itemCount−1]
(forcing measurement), (iii) re-queries `getEstimatedTotalSize`, and only
then (iv) computes the committed browser offset by denormalizing the
normalized target against the freshly recomputed total extent — the one
obtained after the forced measurement, not before it.  The event trace of
an instrumented strategy fixes the order of (i)-(iii). -/
theorem scrollToItem_horizontal_measure_order {IP : Type} (M : Strategy IP)
    (props : ListProps) (st : ScrollState) (ip : IP) (index : Int) (align : Align)
    (h : isHorizontal props = true) :
    let index' := max 0 (min index (props.itemCount - 1))
    let r1 := M.getOffsetForIndexAndAlignment props index' align st.normalizedScrollLeft ip
    let newNorm := r1.1
    let r2 := M.getStartIndexForOffset props (some newNorm) r1.2
    let r3 := M.getStopIndexForStartIndex props r2.1 (some newNorm) r2.2
    let dir :=
      if jsLt st.normalizedScrollLeft newNorm then ScrollDir.forward else ScrollDir.backward
    let overscanForward :=
      if dir = ScrollDir.forward then max 1 (jsOrOne props.overscanCount) else 1
    let measuredIndex := max 0 (min (props.itemCount - 1) (r3.1 + overscanForward))
    let r4 := M.getItemOffset props measuredIndex r3.2
    let newTotal := (M.getEstimatedTotalSize props r4.2).1
    (scrollToItemCore (traced M) props st (ip, ([] : List StratCall)) index align).2.2.2.2 =
      [StratCall.offsetForIndexAndAlignment index' align st.normalizedScrollLeft,
        StratCall.startIndexForOffset (some newNorm),
        StratCall.stopIndexForStartIndex r2.1 (some newNorm),
        StratCall.itemOffset measuredIndex,
        StratCall.estimatedTotalSize] ∧
    (scrollToItem (traced M) props st (ip, ([] : List StratCall)) index align).state.scrollOffset =
      normalizeScrollLeft (mappedDirectionForNormalization props) newNorm
        (min props.width newTotal) newTotal := by
  intro index' r1 newNorm r2 r3 dir overscanForward measuredIndex r4 newTotal
  constructor
  · simp only [scrollToItemCore, traced, h, if_true]
    rfl
  · have hcore :
        (scrollToItemCore (traced M) props st (ip, ([] : List StratCall)) index align).1 =
          normalizeScrollLeft (mappedDirectionForNormalization props) newNorm
            (min props.width newTotal) newTotal := by
      simp only [scrollToItemCore, traced, h, if_true]
    rw [scrollToItem]
    by_cases hg : st.scrollOffset =
        (scrollToItemCore (traced M) props st (ip, ([] : List StratCall)) index align).1
    · simp only [if_pos hg]
      rw [← hcore, ← hg]
    · simp only [if_neg hg]
      rw [← hcore]

/-- Witness for `scrollToItem_horizontal_measure_order`: a concrete
horizontal list where the instrumented strategy records the five calls in
order, with `getItemOffset` probed at clamped index 3 + 2 = 5. -/
theorem scrollToItem_horizontal_measure_order_witness :
    (scrollToItemCore (traced (constStrategy 1 3 100 0 50))
        (ListProps.mk Direction.ltr Layout.horizontal 10 2 30 false false)
        (ScrollState.mk false ScrollDir.forward 0 (some 0) false)
        ((), []) 1 Align.auto).2.2.2.2 =
      [StratCall.offsetForIndexAndAlignment 1 Align.auto (some 0),
        StratCall.startIndexForOffset (some 50),
        StratCall.stopIndexForStartIndex 1 (some 50),
        StratCall.itemOffset 5,
        StratCall.estimatedTotalSize] := by
  have h := scrollToItem_horizontal_measure_order (constStrategy 1 3 100 0 50)
    (ListProps.mk Direction.ltr Layout.horizontal 10 2 30 false false)
    (ScrollState.mk false ScrollDir.forward 0 (some 0) false)
    () 1 Align.auto (by decide)
  exact h.1

/-- Modelled from the spec: the timer collaborator (`requestTimeout` /
`cancelTimeout` from `./timer`, not among the reviewed sources) exposes
schedule and cancel on opaque handles (spec section 6); firing is the
delivery of a scheduled callback.  Events are recorded so that the set of
outstanding timers is observable. -/
inductive TimerEvent
  | schedule (id : Nat)
  | cancel (id : Nat)
  | fire (id : Nat)
deriving DecidableEq, Repr

/-- The timer-related instance state: `resetTimeoutId` is the
`_resetIsScrollingTimeoutId` field (a handle or `null`), `nextId` a supply
of fresh handles, and `trace` the observable schedule/cancel/fire
history. -/
structure EngineTimers where
  nextId : Nat
  resetTimeoutId : Option Nat
  trace : List TimerEvent
deriving DecidableEq, Repr

/-- The ids of timers scheduled and not yet canceled or fired after a
trace: the timers outstanding with the host. -/
def outstanding (tr : List TimerEvent) : List Nat :=
  tr.foldl
    (fun acc e =>
      match e with
      | TimerEvent.schedule i => acc ++ [i]
      | TimerEvent.cancel i => acc.filter (fun j => j ≠ i)
      | TimerEvent.fire i => acc.filter (fun j => j ≠ i))
    []

/-- Source method `_resetIsScrollingDebounced` (lines 720-729): cancel the pending
reset timer, if any, then schedule a fresh one for the debounce
interval. -/
def resetIsScrollingDebounced (t : EngineTimers) : EngineTimers :=
  match t.resetTimeoutId with
  | some i =>
    { nextId := t.nextId + 1,
      resetTimeoutId := some t.nextId,
      trace := t.trace ++ [TimerEvent.cancel i, TimerEvent.schedule t.nextId] }
  | none =>
    { nextId := t.nextId + 1,
      resetTimeoutId := some t.nextId,
      trace := t.trace ++ [TimerEvent.schedule t.nextId] }

/-- The pending debounce timer fires: `_resetIsScrolling` (source lines
731-739) clears the stored handle and the in-motion flag.  When no timer is
pending nothing can fire. -/
def fireResetIsScrolling (t : EngineTimers) (st : ScrollState) :
    EngineTimers × ScrollState :=
  match t.resetTimeoutId with
  | some i =>
    ({ t with resetTimeoutId := none, trace := t.trace ++ [TimerEvent.fire i] },
      resetIsScrollingState st)
  | none => (t, st)

/-- Source method `componentWillUnmount` (lines 405-409): cancel any pending reset
timer. -/
def unmountTimers (t : EngineTimers) : EngineTimers :=
  match t.resetTimeoutId with
  | some i =>
    { t with resetTimeoutId := none, trace := t.trace ++ [TimerEvent.cancel i] }
  | none => t

/-- The handle an event refers to. -/
def eventId : TimerEvent → Nat
  | TimerEvent.schedule i => i
  | TimerEvent.cancel i => i
  | TimerEvent.fire i => i

/-- Well-formedness of the timer state: the outstanding timers of the trace
are exactly the stored pending handle, and every recorded handle is below
the fresh-id supply. -/
def timersWF (t : EngineTimers) : Prop :=
  outstanding t.trace = t.resetTimeoutId.toList ∧
  (∀ e ∈ t.trace, eventId e < t.nextId) ∧
  (∀ i : Nat, t.resetTimeoutId = some i → i < t.nextId)

lemma outstanding_append (tr : List TimerEvent) (e : TimerEvent) :
    outstanding (tr ++ [e]) =
      match e with
      | TimerEvent.schedule i => outstanding tr ++ [i]
      | TimerEvent.cancel i => (outstanding tr).filter (fun j => j ≠ i)
      | TimerEvent.fire i => (outstanding tr).filter (fun j => j ≠ i) := by
  unfold outstanding
  rw [List.foldl_append]
  cases e <;> rfl

lemma outstanding_append_cancel_schedule (tr : List TimerEvent) (i n : Nat) :
    outstanding (tr ++ [TimerEvent.cancel i, TimerEvent.schedule n]) =
      ((outstanding tr).filter (fun j => j ≠ i)) ++ [n] := by
  unfold outstanding
  rw [List.foldl_append]
  rfl

lemma timersWF_resetIsScrollingDebounced (t : EngineTimers) (h : timersWF t) :
    timersWF (resetIsScrollingDebounced t) := by
  obtain ⟨h1, h2, h3⟩ := h
  cases hp : t.resetTimeoutId with
  | none =>
    refine ⟨?_, ?_, ?_⟩
    · simp only [resetIsScrollingDebounced, hp, outstanding_append, h1]
      rfl
    · intro e he
      simp only [resetIsScrollingDebounced, hp] at he ⊢
      rcases List.mem_append.1 he with he' | he'
      · exact Nat.lt_succ_of_lt (h2 e he')
      · simp only [List.mem_singleton] at he'
        subst he'
        simp [eventId]
    · intro i hi
      simp only [resetIsScrollingDebounced, hp, Option.some.injEq] at hi ⊢
      omega
  | some i =>
    have hout : outstanding t.trace = [i] := by rw [h1, hp]; rfl
    refine ⟨?_, ?_, ?_⟩
    · simp only [resetIsScrollingDebounced, hp, outstanding_append_cancel_schedule, hout]
      simp
    · intro e he
      simp only [resetIsScrollingDebounced, hp] at he ⊢
      rcases List.mem_append.1 he with he' | he'
      · exact Nat.lt_succ_of_lt (h2 e he')
      · simp only [List.mem_cons, List.mem_singleton] at he'
        rcases he' with he'' | he''
        · subst he''
          exact Nat.lt_succ_of_lt (by simpa [eventId] using h3 i hp)
        · rcases he'' with he''' | he'''
          · subst he'''
            simp [eventId]
          · cases he'''
    · intro j hj
      simp only [resetIsScrollingDebounced, hp, Option.some.injEq] at hj ⊢
      omega

lemma timersWF_fireResetIsScrolling (t : EngineTimers) (st : ScrollState)
    (h : timersWF t) : timersWF (fireResetIsScrolling t st).1 := by
  obtain ⟨h1, h2, h3⟩ := h
  cases hp : t.resetTimeoutId with
  | none =>
    simp only [fireResetIsScrolling, hp]
    exact ⟨h1, h2, h3⟩
  | some i =>
    have hout : outstanding t.trace = [i] := by rw [h1, hp]; rfl
    refine ⟨?_, ?_, ?_⟩
    · simp only [fireResetIsScrolling, hp, outstanding_append, hout]
      simp
    · intro e he
      simp only [fireResetIsScrolling, hp] at he ⊢
      rcases List.mem_append.1 he with he' | he'
      · exact h2 e he'
      · simp only [List.mem_singleton] at he'
        subst he'
        simpa [eventId] using h3 i hp
    · intro j hj
      simp [fireResetIsScrolling, hp] at hj

lemma timersWF_unmountTimers (t : EngineTimers) (h : timersWF t) :
    timersWF (unmountTimers t) := by
  obtain ⟨h1, h2, h3⟩ := h
  cases hp : t.resetTimeoutId with
  | none =>
    simp only [unmountTimers, hp]
    exact ⟨h1, h2, h3⟩
  | some i =>
    have hout : outstanding t.trace = [i] := by rw [h1, hp]; rfl
    refine ⟨?_, ?_, ?_⟩
    · simp only [unmountTimers, hp, outstanding_append, hout]
      simp
    · intro e he
      simp only [unmountTimers, hp] at he ⊢
      rcases List.mem_append.1 he with he' | he'
      · exact h2 e he'
      · simp only [List.mem_singleton] at he'
        subst he'
        simpa [eventId] using h3 i hp
    · intro j hj
      simp [unmountTimers, hp] at hj

lemma timersWF_outstanding_le_one (t : EngineTimers) (h : timersWF t) :
    (outstanding t.trace).length ≤ 1 := by
  rw [h.1]
  cases t.resetTimeoutId <;> simp

/-- The argument tuple of the `onScroll` host callback:
(scrollDirection, scrollOffset, scrollUpdateWasRequested). -/
abbrev ScrollTuple := ScrollDir × Int × Bool

/-- Modelled from the spec and the `memoize-one` dependency: a
last-arguments-memoized callback (spec section 6: identical repeated
tuples must not re-invoke).  Returns the new cache together with the list
of deliveries actually made to the host callback (empty or singleton). -/
def memoCall {α : Type} [DecidableEq α] (lastArgs : Option α) (arg : α) :
    Option α × List α :=
  if lastArgs = some arg then (lastArgs, []) else (some arg, [arg])

/-- Source field `_callOnItemsRendered` (lines 499-512): memoized delivery of the
window tuple. -/
def callOnItemsRendered (lastArgs : Option RangeTuple) (t : RangeTuple) :
    Option RangeTuple × List RangeTuple :=
  memoCall lastArgs t

/-- Source field `_callOnScroll` (lines 514-530): memoized delivery of the scroll
state tuple. -/
def callOnScroll (lastArgs : Option ScrollTuple) (t : ScrollTuple) :
    Option ScrollTuple × List ScrollTuple :=
  memoCall lastArgs t

/-- Output of `_callPropsCallbacks`: updated instance state, updated memo
caches, and the deliveries actually made. -/
structure CallbacksOut (IP : Type) where
  ip : IP
  memoItems : Option RangeTuple
  memoScroll : Option ScrollTuple
  firedItems : List RangeTuple
  firedScroll : List ScrollTuple

/-- Source method `_callPropsCallbacks` (lines 532-563): when `onItemsRendered` is
supplied and `itemCount > 0`, deliver the current window tuple through the
memoized callback; when `onScroll` is supplied, deliver the current scroll
state tuple through its memoized callback. -/
def callPropsCallbacks {IP : Type} (M : Strategy IP) (props : ListProps)
    (st : ScrollState) (ip : IP) (memoItems : Option RangeTuple)
    (memoScroll : Option ScrollTuple) : CallbacksOut IP :=
  let a :=
    if props.hasOnItemsRendered then
      if 0 < props.itemCount then
        let r := getRangeToRender M props st ip
        let m := callOnItemsRendered memoItems r.1
        (r.2, m.1, m.2)
      else (ip, memoItems, ([] : List RangeTuple))
    else (ip, memoItems, ([] : List RangeTuple))
  let b :=
    if props.hasOnScroll then
      callOnScroll memoScroll
        (st.scrollDirection, st.scrollOffset, st.scrollUpdateWasRequested)
    else (memoScroll, ([] : List ScrollTuple))
  CallbacksOut.mk a.1 a.2.1 b.1 a.2.2 b.2

/-- The inclusive integer range [a, b] as a list. -/
def intRange (a b : Int) : List Int :=
  (List.range (b + 1 - a).toNat).map (fun k => a + k)

/-- The indices realized by `render` (source lines 440-455): the loop runs
from the first to the second component of `_getRangeToRender` (the
overscan-extended bounds) and is guarded by `itemCount > 0`. -/
def renderedIndices {IP : Type} (M : Strategy IP) (props : ListProps)
    (st : ScrollState) (ip : IP) : List Int :=
  let r := getRangeToRender M props st ip
  if 0 < props.itemCount then intRange r.1.1 r.1.2.1 else []

/-- Output of one full programmatic-scroll step: committed state, instance
state, timer state, memo caches and the callback deliveries of the
triggered update pass. -/
structure StepOut (IP : Type) where
  state : ScrollState
  ip : IP
  timers : EngineTimers
  memoItems : Option RangeTuple
  memoScroll : Option ScrollTuple
  firedItems : List RangeTuple
  firedScroll : List ScrollTuple

/-- One full `scrollTo` call against the host, from
`this.setState(updater, this._resetIsScrollingDebounced)`.  React
semantics modelled: when the updater returns `null` the state update and
re-render are skipped (`PureComponent` bails out), so `componentDidUpdate`
— and with it `_callPropsCallbacks` — does not run; the second-argument
completion callback, however, is invoked by React even on such a bailout,
so `_resetIsScrollingDebounced` re-arms the timer in every case.  When the
update commits, `componentDidUpdate` writes the offset back to the host
surface (external, not modelled) and runs `_callPropsCallbacks`. -/
def scrollToStep {IP : Type} (M : Strategy IP) (props : ListProps)
    (st : ScrollState) (ip : IP) (timers : EngineTimers)
    (memoItems : Option RangeTuple) (memoScroll : Option ScrollTuple)
    (offset : Int) : StepOut IP :=
  let u := scrollTo M props st ip offset
  if u.committed then
    let c := callPropsCallbacks M props u.state u.ip memoItems memoScroll
    StepOut.mk u.state c.ip (resetIsScrollingDebounced timers) c.memoItems
      c.memoScroll c.firedItems c.firedScroll
  else
    StepOut.mk st u.ip (resetIsScrollingDebounced timers) memoItems memoScroll [] []

lemma scrollToStep_noop {IP : Type} (M : Strategy IP) (props : ListProps)
    (st : ScrollState) (ip : IP) (timers : EngineTimers)
    (mI : Option RangeTuple) (mS : Option ScrollTuple)
    (h : (scrollToTarget M props ip st.scrollOffset).1 = st.scrollOffset) :
    (scrollToStep M props st ip timers mI mS st.scrollOffset).state = st ∧
    (scrollToStep M props st ip timers mI mS st.scrollOffset).firedItems = [] ∧
    (scrollToStep M props st ip timers mI mS st.scrollOffset).firedScroll = [] ∧
    (scrollToStep M props st ip timers mI mS st.scrollOffset).memoItems = mI ∧
    (scrollToStep M props st ip timers mI mS st.scrollOffset).memoScroll = mS ∧
    (scrollToStep M props st ip timers mI mS st.scrollOffset).timers =
      resetIsScrollingDebounced timers := by
  have hs : scrollTo M props st ip st.scrollOffset =
      UpdOut.mk st false (scrollToTarget M props ip st.scrollOffset).2.2 := by
    simp [scrollTo, h]
  refine ⟨?_, ?_, ?_, ?_, ?_, ?_⟩ <;> simp [scrollToStep, hs]

/-- Counterexample to claim C5 as stated: on an rtl horizontal list whose
estimated total extent (100) has drifted below the committed offset (90,
with viewport width 30), calling `scrollTo` with the committed offset 90
normalizes to -20 < 0 and commits the re-derived offset 70 — the scroll
state changes. -/
theorem scrollTo_committed_offset_not_noop_cex :
    (ScrollState.mk false ScrollDir.forward 90 (some 0) false).scrollOffset = 90 ∧
    (scrollTo (constStrategy 0 0 100 0 0)
        (ListProps.mk Direction.rtl Layout.horizontal 10 2 30 false false)
        (ScrollState.mk false ScrollDir.forward 90 (some 0) false) () 90).state.scrollOffset
      = 70 ∧
    (scrollTo (constStrategy 0 0 100 0 0)
        (ListProps.mk Direction.rtl Layout.horizontal 10 2 30 false false)
        (ScrollState.mk false ScrollDir.forward 90 (some 0) false) () 90).state
      ≠ ScrollState.mk false ScrollDir.forward 90 (some 0) false := by
  refine ⟨rfl, by decide, by decide⟩

/-- Claim C5 (amended): provided `scrollTo`'s clamping phase maps the
committed offset to itself — true whenever the committed offset is
non-negative on vertical and ltr-horizontal layouts, and additionally at
most estimatedTotal − width on rtl horizontal layouts — calling `scrollTo`
with the currently committed offset changes no field of the scroll state
and delivers no `onItemsRendered` (and no `onScroll`) callback. -/
theorem scrollTo_committed_offset_noop_amended {IP : Type} (M : Strategy IP)
    (props : ListProps) (st : ScrollState) (ip : IP) (timers : EngineTimers)
    (mI : Option RangeTuple) (mS : Option ScrollTuple)
    (h : (scrollToTarget M props ip st.scrollOffset).1 = st.scrollOffset) :
    (scrollToStep M props st ip timers mI mS st.scrollOffset).state = st ∧
    (scrollToStep M props st ip timers mI mS st.scrollOffset).firedItems = [] ∧
    (scrollToStep M props st ip timers mI mS st.scrollOffset).firedScroll = [] := by
  obtain ⟨h1, h2, h3, _, _, _⟩ := scrollToStep_noop M props st ip timers mI mS h
  exact ⟨h1, h2, h3⟩

/-- Witness for `scrollTo_committed_offset_noop_amended`: a vertical list
at committed offset 5. -/
theorem scrollTo_committed_offset_noop_amended_witness :
    (scrollToStep (constStrategy 0 0 100 0 0)
        (ListProps.mk Direction.ltr Layout.vertical 10 2 30 true true)
        (ScrollState.mk false ScrollDir.forward 5 (some 0) false) ()
        (EngineTimers.mk 0 none []) none none 5).state =
      ScrollState.mk false ScrollDir.forward 5 (some 0) false :=
  (scrollTo_committed_offset_noop_amended (constStrategy 0 0 100 0 0)
    (ListProps.mk Direction.ltr Layout.vertical 10 2 30 true true)
    (ScrollState.mk false ScrollDir.forward 5 (some 0) false) ()
    (EngineTimers.mk 0 none []) none none (by decide)).1

/-- Counterexample to claim C6 as stated: a `scrollTo` with the currently
committed offset (5) leaves the scroll state unchanged, yet the pending
debounce timer 0 is canceled and a fresh timer 1 scheduled — the no-op
call does re-arm the debounce timer. -/
theorem noop_scrollTo_rearms_debounce_cex :
    (scrollToStep (constStrategy 0 0 100 0 0)
        (ListProps.mk Direction.ltr Layout.vertical 10 2 30 false false)
        (ScrollState.mk false ScrollDir.forward 5 (some 0) false) ()
        (EngineTimers.mk 1 (some 0) [TimerEvent.schedule 0]) none none 5).state =
      ScrollState.mk false ScrollDir.forward 5 (some 0) false ∧
    (scrollToStep (constStrategy 0 0 100 0 0)
        (ListProps.mk Direction.ltr Layout.vertical 10 2 30 false false)
        (ScrollState.mk false ScrollDir.forward 5 (some 0) false) ()
        (EngineTimers.mk 1 (some 0) [TimerEvent.schedule 0]) none none 5).timers.trace =
      [TimerEvent.schedule 0, TimerEvent.cancel 0, TimerEvent.schedule 1] := by
  refine ⟨by decide, by decide⟩

/-- Claim C6 (amended): a `scrollTo` whose clamped target equals the
committed offset is a state no-op but still re-arms the debounce timer
(React runs the `setState` completion callback even when the updater bails
out, and `_resetIsScrollingDebounced` cancels any pending timer before
scheduling a fresh one).  The single-pending-timer discipline holds: the
arm, fire and unmount operations preserve the invariant that the
outstanding timers of the trace are exactly the stored handle, hence at
most one debounce timer is outstanding at any point, and arming always
cancels the prior timer first. -/
theorem debounce_rearm_and_single_timer :
    (∀ (IP : Type) (M : Strategy IP) (props : ListProps) (st : ScrollState)
        (ip : IP) (timers : EngineTimers) (mI : Option RangeTuple)
        (mS : Option ScrollTuple),
      (scrollToTarget M props ip st.scrollOffset).1 = st.scrollOffset →
      (scrollToStep M props st ip timers mI mS st.scrollOffset).state = st ∧
      (scrollToStep M props st ip timers mI mS st.scrollOffset).timers =
        resetIsScrollingDebounced timers) ∧
    (∀ t : EngineTimers, timersWF t →
      timersWF (resetIsScrollingDebounced t) ∧
      (outstanding (resetIsScrollingDebounced t).trace).length ≤ 1 ∧
      (outstanding t.trace).length ≤ 1) ∧
    (∀ (t : EngineTimers) (st : ScrollState), timersWF t →
      timersWF (fireResetIsScrolling t st).1) ∧
    (∀ t : EngineTimers, timersWF t → timersWF (unmountTimers t)) ∧
    (∀ (t : EngineTimers) (i : Nat), t.resetTimeoutId = some i →
      (resetIsScrollingDebounced t).trace =
        t.trace ++ [TimerEvent.cancel i, TimerEvent.schedule t.nextId]) := by
  refine ⟨?_, ?_, ?_, ?_, ?_⟩
  · intro IP M props st ip timers mI mS h
    obtain ⟨h1, _, _, _, _, h6⟩ := scrollToStep_noop M props st ip timers mI mS h
    exact ⟨h1, h6⟩
  · intro t ht
    exact ⟨timersWF_resetIsScrollingDebounced t ht,
      timersWF_outstanding_le_one _ (timersWF_resetIsScrollingDebounced t ht),
      timersWF_outstanding_le_one t ht⟩
  · intro t st ht
    exact timersWF_fireResetIsScrolling t st ht
  · intro t ht
    exact timersWF_unmountTimers t ht
  · intro t i hi
    simp [resetIsScrollingDebounced, hi]

/-- Witness for `debounce_rearm_and_single_timer`: arming with timer 0
pending cancels 0 and schedules the fresh timer 1. -/
theorem debounce_rearm_and_single_timer_witness :
    (resetIsScrollingDebounced (EngineTimers.mk 1 (some 0) [TimerEvent.schedule 0])).trace =
      [TimerEvent.schedule 0] ++ [TimerEvent.cancel 0, TimerEvent.schedule 1] :=
  debounce_rearm_and_single_timer.2.2.2.2
    (EngineTimers.mk 1 (some 0) [TimerEvent.schedule 0]) 0 rfl

lemma memoCall_repeat {α : Type} [DecidableEq α] (m : Option α) (t : α) :
    (memoCall (memoCall m t).1 t).2 = [] := by
  by_cases h : m = some t <;> simp [memoCall, h]

lemma memoCall_once {α : Type} [DecidableEq α] (m : Option α) (t : α) :
    ((memoCall m t).2 ++ (memoCall (memoCall m t).1 t).2).length ≤ 1 := by
  by_cases h : m = some t <;> simp [memoCall, h]

/-- Claim C8: both public change notifications are memoized against their
last-delivered argument tuple: a repeat of the last-delivered tuple never
re-invokes the host callback, so two consecutive deliveries of equal
tuples invoke it at most once — both at the level of the memoized wrappers
`_callOnItemsRendered` / `_callOnScroll` and through
`_callPropsCallbacks`, for which a second pass whose computed tuples
repeat the first delivers nothing. -/
theorem callbacks_memoized :
    (∀ (m : Option RangeTuple) (t : RangeTuple),
      (callOnItemsRendered (callOnItemsRendered m t).1 t).2 = [] ∧
      ((callOnItemsRendered m t).2 ++
        (callOnItemsRendered (callOnItemsRendered m t).1 t).2).length ≤ 1) ∧
    (∀ (m : Option ScrollTuple) (t : ScrollTuple),
      (callOnScroll (callOnScroll m t).1 t).2 = [] ∧
      ((callOnScroll m t).2 ++ (callOnScroll (callOnScroll m t).1 t).2).length ≤ 1) ∧
    (∀ (IP : Type) (M : Strategy IP) (props : ListProps) (st : ScrollState)
        (ip : IP) (mI : Option RangeTuple) (mS : Option ScrollTuple),
      (getRangeToRender M props st (callPropsCallbacks M props st ip mI mS).ip).1 =
        (getRangeToRender M props st ip).1 →
      (callPropsCallbacks M props st (callPropsCallbacks M props st ip mI mS).ip
        (callPropsCallbacks M props st ip mI mS).memoItems
        (callPropsCallbacks M props st ip mI mS).memoScroll).firedItems = [] ∧
      (callPropsCallbacks M props st (callPropsCallbacks M props st ip mI mS).ip
        (callPropsCallbacks M props st ip mI mS).memoItems
        (callPropsCallbacks M props st ip mI mS).memoScroll).firedScroll = []) := by
  refine ⟨?_, ?_, ?_⟩
  · intro m t
    exact ⟨memoCall_repeat m t, memoCall_once m t⟩
  · intro m t
    exact ⟨memoCall_repeat m t, memoCall_once m t⟩
  · intro IP M props st ip mI mS h
    constructor
    · cases hir : props.hasOnItemsRendered with
      | true =>
        by_cases hic : 0 < props.itemCount
        · simp only [callPropsCallbacks, hir, if_true, if_pos hic,
            callOnItemsRendered] at h ⊢
          rw [h]
          exact memoCall_repeat mI (getRangeToRender M props st ip).1
        · simp [callPropsCallbacks, hir, hic]
      | false =>
        simp [callPropsCallbacks, hir]
    · cases hos : props.hasOnScroll with
      | true =>
        simp only [callPropsCallbacks, hos, if_true, callOnScroll]
        exact memoCall_repeat mS
          (st.scrollDirection, st.scrollOffset, st.scrollUpdateWasRequested)
      | false =>
        simp [callPropsCallbacks, hos]

/-- Witness for `callbacks_memoized`: a concrete second pass of
`_callPropsCallbacks` with an unchanged window delivers nothing. -/
theorem callbacks_memoized_witness :
    (callPropsCallbacks (constStrategy 0 3 100 0 0)
      (ListProps.mk Direction.ltr Layout.vertical 10 2 30 true true)
      (ScrollState.mk false ScrollDir.forward 0 (some 0) false) ()
      (callPropsCallbacks (constStrategy 0 3 100 0 0)
        (ListProps.mk Direction.ltr Layout.vertical 10 2 30 true true)
        (ScrollState.mk false ScrollDir.forward 0 (some 0) false) () none none).memoItems
      (callPropsCallbacks (constStrategy 0 3 100 0 0)
        (ListProps.mk Direction.ltr Layout.vertical 10 2 30 true true)
        (ScrollState.mk false ScrollDir.forward 0 (some 0) false) () none none).memoScroll).firedItems
      = [] :=
  (callbacks_memoized.2.2 Unit (constStrategy 0 3 100 0 0)
    (ListProps.mk Direction.ltr Layout.vertical 10 2 30 true true)
    (ScrollState.mk false ScrollDir.forward 0 (some 0) false) () none none
    (by decide)).1

/-- Claim C10: when itemCount = 0 no `onItemsRendered` delivery is ever
made by `_callPropsCallbacks` (its window branch is guarded by
`itemCount > 0`), while the `onScroll` delivery path is unaffected: with a
fresh memo cache (a mount) a supplied `onScroll` receives exactly the
current scroll-state tuple; and `render` realizes zero items. -/
theorem empty_list_callbacks {IP : Type} (M : Strategy IP) (props : ListProps)
    (st : ScrollState) (ip : IP) (mI : Option RangeTuple) (mS : Option ScrollTuple)
    (h : props.itemCount = 0) :
    (callPropsCallbacks M props st ip mI mS).firedItems = [] ∧
    (props.hasOnScroll = true → mS = none →
      (callPropsCallbacks M props st ip mI mS).firedScroll =
        [(st.scrollDirection, st.scrollOffset, st.scrollUpdateWasRequested)]) ∧
    renderedIndices M props st ip = [] := by
  have hic : ¬ 0 < props.itemCount := by omega
  refine ⟨?_, ?_, ?_⟩
  · cases hir : props.hasOnItemsRendered with
    | true => simp [callPropsCallbacks, hir, hic]
    | false => simp [callPropsCallbacks, hir]
  · intro hos hms
    simp [callPropsCallbacks, hos, hms, callOnScroll, memoCall]
  · simp [renderedIndices, hic]

/-- Witness for `empty_list_callbacks`: a concrete empty list with both
callbacks supplied fires no items delivery and realizes no item. -/
theorem empty_list_callbacks_witness :
    (callPropsCallbacks (constStrategy 0 0 0 0 0)
      (ListProps.mk Direction.ltr Layout.vertical 0 2 30 true true)
      (ScrollState.mk false ScrollDir.forward 0 (some 0) false) () none none).firedItems
      = [] ∧
    renderedIndices (constStrategy 0 0 0 0 0)
      (ListProps.mk Direction.ltr Layout.vertical 0 2 30 true true)
      (ScrollState.mk false ScrollDir.forward 0 (some 0) false) () = [] :=
  ⟨(empty_list_callbacks (constStrategy 0 0 0 0 0)
      (ListProps.mk Direction.ltr Layout.vertical 0 2 30 true true)
      (ScrollState.mk false ScrollDir.forward 0 (some 0) false) () none none rfl).1,
    (empty_list_callbacks (constStrategy 0 0 0 0 0)
      (ListProps.mk Direction.ltr Layout.vertical 0 2 30 true true)
      (ScrollState.mk false ScrollDir.forward 0 (some 0) false) () none none rfl).2.2⟩
